import Mathlib

/-!
Shallow embedding of the realtime (SSE) manager and the pub/sub (WebSocket)
manager of the bosbase Go SDK, together with proofs settling the frozen
claims about them.

Conventions of the embedding:
* Go string-keyed maps of interface values are association lists over
  `GoVal`; lookup of an absent key is `Option.none`, matching a nil
  interface value.
* `fmt.Sprint` applied to one looked-up value is `goSprint`; in Go a nil
  interface prints as the five characters `<nil>`.
* Channels of capacity one are an `Option` slot; a `time.AfterFunc` timer is
  a Boolean flag plus its deadline.  Real time is an abstract `Nat` clock
  field `now` that request-id generation reads, mirroring
  `time.Now().UnixNano()`.
* Goroutine blocking (`<-ch`) is modelled by splitting an operation at the
  blocking point: the send half returns the request id, and the resolution
  half consumes the value the channel slot eventually holds.
-/

namespace GoSDK

/-- Values stored in a decoded JSON frame or delivered through a pending
channel.  `errV` stands for a `*ClientResponseError` value holding the
message that the rejecting code placed in the map (pubsub.go,
`rejectPending`). -/
inductive GoVal where
  | nullV : GoVal
  | strV (s : String) : GoVal
  | numV (n : Int) : GoVal
  | boolV (b : Bool) : GoVal
  | errV (msg : String) : GoVal
deriving DecidableEq, Repr

/-- Lookup in an association list modelling a Go map; an absent key is a nil
interface value. -/
def lookupL {α : Type} : List (String × α) → String → Option α
  | [], _ => none
  | (k, v) :: rest, key => if k = key then some v else lookupL rest key

/-- Update of an association-list map: replace the value at the key when
present, otherwise insert the binding, as Go map assignment does. -/
def setKey {α : Type} (m : List (String × α)) (k : String) (v : α) :
    List (String × α) :=
  if m.any (fun p => p.1 = k) then
    m.map (fun p => if p.1 = k then (k, v) else p)
  else m ++ [(k, v)]

/-- Rendering of `fmt.Sprint(v)` for a single looked-up map value.  A missing
key (nil interface) and a JSON null both print as the literal `<nil>`. -/
def goSprint : Option GoVal → String
  | none => "<nil>"
  | some GoVal.nullV => "<nil>"
  | some (GoVal.strV s) => s
  | some (GoVal.numV n) => toString n
  | some (GoVal.boolV true) => "true"
  | some (GoVal.boolV false) => "false"
  | some (GoVal.errV m) => m

/-- A decoded JSON frame or envelope (a Go string-keyed map of interface
values). -/
abbrev Frame : Type := List (String × GoVal)

namespace PubSub

/-- Timeout, in seconds, of the `time.AfterFunc(10*time.Second, ...)` timer
that guards every pending request (pubsub.go, `waitForAck`). -/
def ackTimeoutSeconds : Nat := 10

/-- The channel-plus-timer pair created by `waitForAck`.  `chSlot` is the
buffered channel of capacity one: `none` while empty, `some none` after the
timer delivered the nil sentinel, `some (some payload)` after an ack or a
rejection delivered a map.  `timerOn` is false once the timer was stopped or
has fired.  The waiter object outlives the pending-map entry: dropping the
map does not destroy the channel or the timer. -/
structure Waiter where
  rid : String
  chSlot : Option (Option Frame)
  timerOn : Bool
  deadline : Nat
deriving DecidableEq, Repr

/-- State of a `PubSubService` value.  `pendingIDs` is the key set of the
`pending` map; `waiters` is the collection of channel/timer objects those
entries (or formerly those entries) point at.  `dialOK` is the environment:
whether dialling the WebSocket endpoint succeeds. -/
structure State where
  connOpen : Bool
  isReady : Bool
  clientID : String
  subs : List (String × List String)
  pendingIDs : List String
  waiters : List Waiter
  counter : Nat
  now : Nat
  dialOK : Bool
deriving DecidableEq, Repr

/-- The acknowledgement structure `Publish` returns (pubsub.go, `PublishAck`). -/
structure PublishAck where
  id : String
  topic : String
  created : String
deriving DecidableEq, Repr

/-- Generation of a request id: `p.counter++` then
`fmt.Sprintf("%d", time.Now().UnixNano()+p.counter)` (pubsub.go,
`nextRequestID`). -/
def nextRequestID (s : State) : String × State :=
  let c := s.counter + 1
  (toString (s.now + c), { s with counter := c })

/-- Registration of a pending waiter: a fresh empty channel of capacity one,
an armed 10-second timer, and a `pending` map entry (pubsub.go,
`waitForAck`). -/
def waitForAck (rid : String) (s : State) : State :=
  { s with
    waiters := s.waiters ++ [⟨rid, none, true, s.now + ackTimeoutSeconds⟩],
    pendingIDs := s.pendingIDs ++ [rid] }

/-- Socket acquisition (pubsub.go, `ensureSocket`): a no-op when a ready
connection exists; otherwise dial and mark not ready, the `listen` loop being
started on success. -/
def ensureSocket (s : State) : Except String State :=
  if s.connOpen && s.isReady then Except.ok s
  else if s.dialOK then Except.ok { s with connOpen := true, isReady := false }
  else Except.error "websocket dial failed"

/-- Serialisation and write of one envelope (pubsub.go, `sendEnvelope`):
ensure the socket, fail when the connection is still nil, otherwise emit the
frame. -/
def sendEnvelope (env : Frame) (s : State) : Except String (State × Frame) :=
  match ensureSocket s with
  | Except.error e => Except.error e
  | Except.ok s1 =>
      if s1.connOpen then Except.ok (s1, env)
      else Except.error "pubsub connection not initialized"

/-- Teardown (pubsub.go, `Disconnect`): close and drop the connection, clear
the ready mark, replace the `pending` map with a fresh empty one.  The
waiter objects (channels and still-armed timers) are not touched. -/
def disconnect (s : State) : State :=
  { s with connOpen := false, isReady := false, pendingIDs := [] }

/-- Firing of the `time.AfterFunc` timer of one waiter: if it was not
stopped, it delivers the nil sentinel into the channel slot.  A stopped or
already-fired timer does nothing. -/
def timerFire (rid : String) (s : State) : State :=
  { s with
    waiters := s.waiters.map (fun w =>
      if w.rid = rid && w.timerOn then
        { w with chSlot := some none, timerOn := false }
      else w) }

/-- Resolution of a pending request by an ack frame (pubsub.go,
`resolvePending`): only when the id is still in the `pending` map, stop the
timer, deliver the payload, delete the entry. -/
def resolvePending (rid : String) (payload : Frame) (s : State) : State :=
  if s.pendingIDs.contains rid then
    { s with
      waiters := s.waiters.map (fun w =>
        if w.rid = rid then
          { w with chSlot := some (some payload), timerOn := false }
        else w),
      pendingIDs := s.pendingIDs.erase rid }
  else s

/-- Rejection of a pending request (pubsub.go, `rejectPending`): the waiter
receives the one-entry map binding the key `error` to the
`*ClientResponseError` value; the entry is removed. -/
def rejectPending (rid : String) (msg : String) (s : State) : State :=
  resolvePending rid [("error", GoVal.errV msg)] s

/-- Reading the channel of the waiter registered under a request id. -/
def chRead (s : State) (rid : String) : Option (Option Frame) :=
  match s.waiters.find? (fun w => w.rid = rid) with
  | some w => w.chSlot
  | none => none

/-- Key snapshot of the subscription map (pubsub.go, `getTopicsLocked`). -/
def getTopicsLocked (s : State) : List String :=
  s.subs.map Prod.fst

/-- First half of `Publish` (pubsub.go, lines up to the channel read):
validate the topic, ensure the socket, draw a request id, register the
waiter, send the publish envelope.  The returned id names the channel the
call then blocks on. -/
def publishSend (topic : String) (data : GoVal) (s : State) :
    Except String (State × String × Frame) :=
  if topic = "" then Except.error "topic must be set"
  else
    match ensureSocket s with
    | Except.error e => Except.error e
    | Except.ok s1 =>
        let (rid, s2) := nextRequestID s1
        let s3 := waitForAck rid s2
        let env : Frame :=
          [("type", GoVal.strV "publish"), ("topic", GoVal.strV topic),
           ("data", data), ("requestId", GoVal.strV rid)]
        match sendEnvelope env s3 with
        | Except.error e => Except.error e
        | Except.ok (s4, e) => Except.ok (s4, rid, e)

/-- Second half of `Publish`: the value read from the waiter channel is
checked against nil only; any non-nil map is turned into a successful
`PublishAck` from its `id` and `created` keys (pubsub.go, `Publish`, final
lines). -/
def publishResolve (delivered : Option Frame) (topic : String) :
    Except String PublishAck :=
  match delivered with
  | none => Except.error "missing publish ack"
  | some payload =>
      Except.ok
        ⟨goSprint (lookupL payload "id"), topic,
         goSprint (lookupL payload "created")⟩

/-- Sending with the discarded error of the source, `_ = p.sendEnvelope(...)`:
on failure the state after the attempted dial is kept and no frame goes out. -/
def sendEnvelopeIgnore (env : Frame) (s : State) : State × List Frame :=
  match sendEnvelope env s with
  | Except.ok (s1, e) => (s1, [e])
  | Except.error _ => (s, [])

/-- The resubscription loop of the `ready` branch of `handleMessage`: for
each topic, draw a request id, register its own ack waiter, send the
subscribe envelope, and block on the ack (`<-ack`).  Each wait is released
by a later ack frame or by the 10-second timer, so the loop reaches every
topic; the model emits the envelopes in loop order. -/
def resubscribeAll (topics : List String) (s : State) : State × List Frame :=
  match topics with
  | [] => (s, [])
  | t :: rest =>
      let (rid, s1) := nextRequestID s
      let s2 := waitForAck rid s1
      let env : Frame :=
        [("type", GoVal.strV "subscribe"), ("topic", GoVal.strV t),
         ("requestId", GoVal.strV rid)]
      let (s3, sent) := sendEnvelopeIgnore env s2
      let (s4, rest') := resubscribeAll rest s3
      (s4, sent ++ rest')

/-- Shared body of the four ack branches of `handleMessage`: resolve the
pending entry named by the frame when its `requestId` is a string (the Go
type assertion `data["requestId"].(string)`). -/
def ackResolve (data : Frame) (s : State) : State :=
  match lookupL data "requestId" with
  | some (GoVal.strV rid) => resolvePending rid data s
  | _ => s

/-- Dispatch of one inbound frame by its `type` (pubsub.go,
`handleMessage`).  Returns the new state, the envelopes the handler sent,
and, for a `message` frame, the snapshot of listener ids the loop invokes
(the invocations themselves are modelled by `dispatchListeners`). -/
def handleMessage (data : Frame) (s : State) :
    State × List Frame × List String :=
  match goSprint (lookupL data "type") with
  | "ready" =>
      let s1 :=
        { s with clientID := goSprint (lookupL data "clientId"),
                 isReady := true }
      let topics := getTopicsLocked s1
      let (s2, sent) := resubscribeAll topics s1
      (s2, sent, [])
  | "message" =>
      let topic := goSprint (lookupL data "topic")
      (s, [], (lookupL s.subs topic).getD [])
  | "published" =>
      (ackResolve data s, [], [])
  | "subscribed" =>
      (ackResolve data s, [], [])
  | "unsubscribed" =>
      (ackResolve data s, [], [])
  | "pong" =>
      (ackResolve data s, [], [])
  | "error" =>
      match lookupL data "requestId" with
      | some (GoVal.strV rid) =>
          (rejectPending rid (goSprint (lookupL data "message")) s, [], [])
      | _ => (s, [], [])
  | _ => (s, [], [])

end PubSub

namespace Realtime

/-- State of a `RealtimeService` value.  `stopCh` and `readyCh` model the
two channels: `none` is a nil channel, `some false` an open one, `some true`
a closed one.  Listener callbacks live outside the state (see
`dispatchListeners`); buckets hold listener ids. -/
structure State where
  clientID : String
  onDisconnectSet : Bool
  subscriptions : List (String × List String)
  stopCh : Option Bool
  readyCh : Option Bool
  running : Bool
  counter : Nat
deriving DecidableEq, Repr

/-- Key snapshot of the subscription map (realtime.go,
`getActiveSubscriptionsLocked`). -/
def getActiveSubscriptionsLocked (s : State) : List String :=
  s.subscriptions.map Prod.fst

/-- The resync request (realtime.go, `submitSubscriptions`): the POST body
`clientId` plus all active keys, or nothing when no client id is recorded or
no subscription exists. -/
def submitSubscriptions (s : State) : Option (String × List String) :=
  if s.clientID = "" || s.subscriptions.isEmpty then none
  else some (s.clientID, getActiveSubscriptionsLocked s)

/-- What a call performed after mutating the subscription map: it invoked
`submitSubscriptions` (carrying the payload that produced, if any), or it
invoked `Disconnect`. -/
inductive Action where
  | resync (payload : Option (String × List String)) : Action
  | disconnected : Action
deriving DecidableEq, Repr

/-- Teardown (realtime.go, `Disconnect`): close `stopCh` when non-nil — Go
panics on closing an already-closed channel — then clear the running flag,
the ready channel and the client id.  `stopCh` itself is never reset to
nil. -/
def disconnect (s : State) : Except String State :=
  match s.stopCh with
  | some true => Except.error "close of closed channel"
  | some false =>
      Except.ok { s with stopCh := some true, running := false,
                         readyCh := none, clientID := "" }
  | none =>
      Except.ok { s with running := false, readyCh := none, clientID := "" }

/-- Idempotent start of the background loop (realtime.go, `ensureThread`):
when not yet running, allocate fresh stop and ready channels and mark
running. -/
def ensureThread (s : State) : State :=
  if s.running then s
  else { s with stopCh := some false, readyCh := some false, running := true }

/-- Whether one subscription key falls to `Unsubscribe(topic)` /
`UnsubscribeByTopicAndID`: the exact topic, or the topic followed by a
question mark and any option suffix. -/
def keyMatches (topic key : String) : Bool :=
  key = topic || (topic ++ "?").isPrefixOf key

/-- Shared tail of the unsubscribe paths: resync when subscriptions remain,
otherwise disconnect (which can only fail by the double-close panic). -/
def afterRemoval (s : State) : Except String (State × Action) :=
  if s.subscriptions.isEmpty then
    match disconnect s with
    | Except.error e => Except.error e
    | Except.ok s1 => Except.ok (s1, Action.disconnected)
  else Except.ok (s, Action.resync (submitSubscriptions s))

/-- Topic-level unsubscribe (realtime.go, `Unsubscribe`): the empty topic
clears the whole map; otherwise every key equal to the topic or carrying it
as a question-mark prefix is deleted.  Then resync or disconnect. -/
def unsubscribe (topic : String) (s : State) : Except String (State × Action) :=
  let s1 :=
    if topic = "" then { s with subscriptions := [] }
    else
      { s with subscriptions :=
          s.subscriptions.filter (fun kv => !keyMatches topic kv.1) }
  afterRemoval s1

/-- Subscription key construction (realtime.go, `buildSubscriptionKey`).
The JSON serialisation and URL escaping of the non-empty query/header maps
is abstracted as the pre-serialised `options` string; `none` when both maps
are empty. -/
def buildSubscriptionKey (topic : String) (options : Option String) : String :=
  match options with
  | none => topic
  | some opt =>
      topic ++ (if topic.contains (Char.ofNat 63) then "&" else "?") ++
        "options=" ++ opt

/-- Outcome of `EnsureConnected(timeout)` (realtime.go): after the inner
`ensureThread`, a nil ready channel is an initialisation error; a closed one
returns at once; an open one returns success only when the environment flag
says the handshake closed it within the timeout, and the distinguished
timeout error otherwise. -/
def ensureConnectedOutcome (becomesReady : Bool) (s : State) :
    Except String Unit :=
  match (ensureThread s).readyCh with
  | none => Except.error "realtime connection not initialized"
  | some true => Except.ok ()
  | some false =>
      if becomesReady then Except.ok ()
      else Except.error "Realtime connection not established"

/-- Registration of a listener (realtime.go, `Subscribe`).  `cbProvided`
models the nil-callback guard; `becomesReady` is the environment of the
inner `EnsureConnected(10s)` wait.  On success the key and the fresh
listener id (the data captured by the returned closure) come back; on a
connection failure the error comes back but the listener stays registered. -/
def subscribe (topic : String) (cbProvided : Bool) (options : Option String)
    (becomesReady : Bool) (s : State) :
    State × Except String (String × String) :=
  if topic = "" then (s, Except.error "topic must be set")
  else if !cbProvided then (s, Except.error "callback must be set")
  else
    let c := s.counter + 1
    let lid := "l-" ++ toString c
    let key := buildSubscriptionKey topic options
    let bucket := (lookupL s.subscriptions key).getD [] ++ [lid]
    let s1 := { s with counter := c,
                       subscriptions := setKey s.subscriptions key bucket }
    let s2 := ensureThread s1
    match ensureConnectedOutcome becomesReady s2 with
    | Except.error e => (s2, Except.error e)
    | Except.ok _ =>
        let _ := submitSubscriptions s2
        (s2, Except.ok (key, lid))

/-- Result of dispatching one server-sent event (realtime.go,
`dispatchEvent`): the state, whether and with which payload
`submitSubscriptions` ran, the arguments of each `OnDisconnect` invocation,
and the listener-bucket snapshot the non-handshake branch iterates over. -/
structure DispatchResult where
  state : State
  resyncCalled : Bool
  resync : Option (String × List String)
  hookArgs : List (List String)
  invoked : List String
deriving DecidableEq, Repr

/-- Event dispatch (realtime.go, `dispatchEvent`).  The JSON decoding of the
data lines is abstracted as `payload0`, `none` standing for absent or
unparseable data (the code then substitutes the empty object).  A
`PB_CONNECT` event records the client id — `fmt.Sprint` of the payload field,
falling back to the `id:` field only when that print is empty — closes the
ready channel, resyncs, and invokes the `OnDisconnect` hook with an empty
list when set.  Any other event name only snapshots and invokes its
bucket. -/
def dispatchEvent (name0 : String) (payload0 : Option Frame) (evtID : String)
    (s : State) : DispatchResult :=
  let name := if name0 = "" then "message" else name0
  let payload := payload0.getD []
  if name = "PB_CONNECT" then
    let cid0 := goSprint (lookupL payload "clientId")
    let cid := if cid0 = "" then evtID else cid0
    let readyCh1 :=
      match s.readyCh with
      | some false => some true
      | other => other
    let s1 := { s with clientID := cid, readyCh := readyCh1 }
    { state := s1, resyncCalled := true, resync := submitSubscriptions s1,
      hookArgs := if s.onDisconnectSet then [[]] else [], invoked := [] }
  else
    { state := s, resyncCalled := false, resync := none, hookArgs := [],
      invoked := (lookupL s.subscriptions name).getD [] }

/-- Stream-loss handling (realtime.go, `handleDisconnect`): replace a
non-nil ready channel by a fresh open one, clear the client id, and invoke
the hook with the keys active at that moment. -/
def handleDisconnect (s : State) : State × List (List String) :=
  let s1 :=
    { s with readyCh := (match s.readyCh with
                         | none => none
                         | some _ => some false),
             clientID := "" }
  (s1, if s.onDisconnectSet then [getActiveSubscriptionsLocked s] else [])

end Realtime

/-- One registered listener together with its callback.  A callback returning
`Except.error m` models a Go callback that panics with message `m`. -/
structure CBListener where
  id : String
  fn : GoSDK.Frame → Except String Unit

/-- The dispatch loop both managers run over a bucket snapshot (realtime.go,
`dispatchEvent` tail; pubsub.go, `handleMessage` message branch): each
callback is invoked inside an anonymous function that defers a bare
`recover()`, so a panic is confined to its own entry — the loop records the
outcome and continues with the next listener instead of unwinding. -/
def dispatchListeners (entries : List CBListener) (msg : Frame) :
    List (String × Except String Unit) :=
  match entries with
  | [] => []
  | e :: rest => (e.id, e.fn msg) :: dispatchListeners rest msg

/-! Helper lemmas about the embedding, shared by the claim theorems. -/

theorem lookupL_append_right {α : Type} (m : List (String × α)) (k : String)
    (v : α) (h : m.all (fun p => p.1 ≠ k)) :
    lookupL (m ++ [(k, v)]) k = some v := by
  induction m with
  | nil => simp [lookupL]
  | cons a rest ih =>
      simp only [List.all_cons, Bool.and_eq_true, decide_eq_true_eq] at h
      simpa [lookupL, h.1] using ih h.2

theorem lookupL_map_update {α : Type} (m : List (String × α)) (k : String)
    (v : α) (h : m.any (fun p => p.1 = k) = true) :
    lookupL (m.map (fun p => if p.1 = k then (k, v) else p)) k = some v := by
  induction m with
  | nil => simp at h
  | cons a rest ih =>
      by_cases ha : a.1 = k
      · simp only [List.map_cons]
        rw [if_pos ha]
        simp [lookupL]
      · simp only [List.any_cons, Bool.or_eq_true, decide_eq_true_eq] at h
        rcases h with h | h
        · exact absurd h ha
        · simp only [List.map_cons]
          rw [if_neg ha]
          simp only [lookupL]
          rw [if_neg ha]
          exact ih h

theorem lookupL_setKey_self {α : Type} (m : List (String × α)) (k : String)
    (v : α) : lookupL (setKey m k v) k = some v := by
  unfold setKey
  by_cases h : m.any (fun p => p.1 = k) = true
  · simpa [h] using lookupL_map_update m k v h
  · have hall : m.all (fun p => p.1 ≠ k) = true := by
      rw [List.all_eq_true]
      intro p hp
      by_contra hc
      simp only [decide_eq_true_eq] at hc
      exact h (List.any_eq_true.mpr ⟨p, hp, by simpa using hc⟩)
    simpa [h] using lookupL_append_right m k v hall

theorem lookupL_some_mem_keys {α : Type} (m : List (String × α)) (k : String)
    (v : α) (h : lookupL m k = some v) : k ∈ m.map Prod.fst := by
  induction m with
  | nil => simp [lookupL] at h
  | cons a rest ih =>
      by_cases ha : a.1 = k
      · simp [ha]
      · simp only [lookupL, if_neg ha] at h
        simpa using Or.inr (ih h)

theorem find?_timerFire (l : List PubSub.Waiter) (w : PubSub.Waiter)
    (hw : l.find? (fun x => x.rid = w.rid) = some w) (ht : w.timerOn = true) :
    (l.map (fun x =>
      if x.rid = w.rid && x.timerOn then
        { x with chSlot := some none, timerOn := false }
      else x)).find? (fun x => x.rid = w.rid) =
      some { w with chSlot := some none, timerOn := false } := by
  induction l with
  | nil => simp at hw
  | cons a rest ih =>
      by_cases ha : a.rid = w.rid
      · rw [List.find?_cons_of_pos _ (by simpa using ha)] at hw
        have haw : a = w := by injection hw
        subst haw
        simp [ha, ht, List.find?_cons_of_pos]
      · rw [List.find?_cons_of_neg _ (by simpa using ha)] at hw
        rw [List.map_cons]
        rw [if_neg (show ¬((decide (a.rid = w.rid) && a.timerOn) = true) by
          simp [ha])]
        rw [List.find?_cons_of_neg _ (by simpa using ha)]
        exact ih hw

theorem dispatchListeners_eq_map (entries : List CBListener) (msg : Frame) :
    dispatchListeners entries msg =
      entries.map (fun e => (e.id, e.fn msg)) := by
  induction entries with
  | nil => rfl
  | cons e rest ih => simp [dispatchListeners, ih]

theorem resubscribeAll_cons (t : String) (rest : List String)
    (s : PubSub.State) (hconn : s.connOpen = true)
    (hready : s.isReady = true) :
    PubSub.resubscribeAll (t :: rest) s =
      ((PubSub.resubscribeAll rest
          (PubSub.waitForAck (PubSub.nextRequestID s).1
            (PubSub.nextRequestID s).2)).1,
       [("type", GoVal.strV "subscribe"), ("topic", GoVal.strV t),
        ("requestId", GoVal.strV (PubSub.nextRequestID s).1)] ::
         (PubSub.resubscribeAll rest
           (PubSub.waitForAck (PubSub.nextRequestID s).1
             (PubSub.nextRequestID s).2)).2) := by
  simp [PubSub.resubscribeAll, PubSub.nextRequestID, PubSub.waitForAck,
    PubSub.sendEnvelopeIgnore, PubSub.sendEnvelope, PubSub.ensureSocket,
    hconn, hready]

theorem resubscribeAll_spec (ts : List String) (s : PubSub.State)
    (hconn : s.connOpen = true) (hready : s.isReady = true) :
    (PubSub.resubscribeAll ts s).1.connOpen = true
    ∧ (PubSub.resubscribeAll ts s).1.isReady = true
    ∧ (PubSub.resubscribeAll ts s).1.clientID = s.clientID
    ∧ (PubSub.resubscribeAll ts s).2.map
        (fun e => goSprint (lookupL e "topic")) = ts
    ∧ (∀ r ∈ s.pendingIDs, r ∈ (PubSub.resubscribeAll ts s).1.pendingIDs)
    ∧ (∀ e ∈ (PubSub.resubscribeAll ts s).2,
        goSprint (lookupL e "requestId") ∈
          (PubSub.resubscribeAll ts s).1.pendingIDs) := by
  induction ts generalizing s with
  | nil =>
      refine ⟨hconn, hready, rfl, rfl, ?_, ?_⟩
      · intro r hr; simpa [PubSub.resubscribeAll] using hr
      · intro e he; simp [PubSub.resubscribeAll] at he
  | cons t rest ih =>
      rw [resubscribeAll_cons t rest s hconn hready]
      obtain ⟨ih1, ih2, ih3, ih4, ih5, ih6⟩ :=
        ih (PubSub.waitForAck (PubSub.nextRequestID s).1
          (PubSub.nextRequestID s).2) hconn hready
      refine ⟨ih1, ih2, ih3, ?_, ?_, ?_⟩
      · rw [List.map_cons, ih4]
        rfl
      · intro r hr
        exact ih5 r (List.mem_append_left _ hr)
      · intro e he
        rcases List.mem_cons.mp he with he | he
        · subst he
          exact ih5 (PubSub.nextRequestID s).1
            (List.mem_append_right _ (by simp))
        · exact ih6 e he

theorem ensureThread_idem (s : Realtime.State) :
    Realtime.ensureThread (Realtime.ensureThread s) = Realtime.ensureThread s := by
  by_cases h : s.running <;> simp [Realtime.ensureThread, h]

theorem ensureThread_readyCh_congr (s : Realtime.State)
    (m : List (String × List String)) (c : Nat) :
    (Realtime.ensureThread
      { s with counter := c, subscriptions := m }).readyCh =
      (Realtime.ensureThread s).readyCh := by
  by_cases h : s.running <;> simp [Realtime.ensureThread, h]

/-! Concrete reachable states used by the claim evaluations. -/

/-- A connected, ready pub/sub manager with one listener on topic `chat`,
about to publish; the abstract clock stands at 900, so the next request id
is `901`. -/
def c1_start : PubSub.State :=
  { connOpen := true, isReady := true, clientID := "c",
    subs := [("chat", ["l-1"])], pendingIDs := [], waiters := [],
    counter := 0, now := 900, dialOK := true }

/-- The state `publishSend` leaves behind: the waiter for request `901` is
registered with an armed 10-second timer. -/
def c1_afterSend : PubSub.State :=
  { c1_start with
    counter := 1, pendingIDs := ["901"],
    waiters := [⟨"901", none, true, 910⟩] }

/-- The publish envelope of the run in `c1_error_frame_yields_success_ack`. -/
def c1_env : Frame :=
  [("type", GoVal.strV "publish"), ("topic", GoVal.strV "chat"),
   ("data", GoVal.strV "hi"), ("requestId", GoVal.strV "901")]

/-- Claim C1 (evaluation at the failing input).  A publish of `hi` to
`chat` is answered by the server frame of type `error` with the matching
request id and message `boom`.  `rejectPending` delivers the one-entry
error map to the waiter, and the final lines of `Publish` — which test the
delivered payload against nil only — turn it into a successful `PublishAck`
whose id and created fields are the printed nil interface, with a nil
error.  The claim (and spec section 4.2) say a non-nil structured error
carrying the server message is returned instead; the code never reads the
`error` key that `rejectPending` stored, so the server error is swallowed. -/
theorem c1_error_frame_yields_success_ack :
    PubSub.publishSend "chat" (GoVal.strV "hi") c1_start =
      Except.ok (c1_afterSend, "901", c1_env)
    ∧ PubSub.chRead
        (PubSub.handleMessage
          [("type", GoVal.strV "error"), ("requestId", GoVal.strV "901"),
           ("message", GoVal.strV "boom")] c1_afterSend).1 "901" =
      some (some [("error", GoVal.errV "boom")])
    ∧ PubSub.publishResolve (some [("error", GoVal.errV "boom")]) "chat" =
      Except.ok ⟨"<nil>", "chat", "<nil>"⟩ :=
  ⟨rfl, rfl, rfl⟩

/-- The waiter of a publish request `101` whose ack never arrives. -/
def c4_waiter : PubSub.Waiter := ⟨"101", none, true, 110⟩

/-- A pub/sub manager blocked on request `101`, no ack in sight. -/
def c4_state : PubSub.State :=
  { connOpen := true, isReady := true, clientID := "c", subs := [],
    pendingIDs := ["101"], waiters := [c4_waiter], counter := 1,
    now := 100, dialOK := true }

/-- Claim C4 (counterexample to the second half).  When the 10-second timer
of request `101` fires, the waiter receives the nil sentinel and `Publish`
returns the missing-ack error — but the pending map still contains `101`:
the timer callback only writes into the channel and never deletes the map
entry, contradicting the claim that the map no longer contains the id. -/
theorem c4_counterexample :
    PubSub.chRead (PubSub.timerFire "101" c4_state) "101" = some none
    ∧ PubSub.publishResolve none "chat" =
      Except.error "missing publish ack"
    ∧ "101" ∈ (PubSub.timerFire "101" c4_state).pendingIDs :=
  ⟨rfl, rfl, by decide⟩

/-- Claim C4 (amended): if no ack frame ever arrives for a publish request,
the 10-second timer fires, the blocked call receives the nil sentinel and
returns the timeout error rather than hanging; the pending-request map,
however, still contains the request id afterwards — the entry is only
removed by a later resolve/reject or by `Disconnect`. -/
theorem c4_publish_timeout_error (s : PubSub.State) (w : PubSub.Waiter)
    (topic : String)
    (hw : s.waiters.find? (fun x => x.rid = w.rid) = some w)
    (htimer : w.timerOn = true)
    (hpend : w.rid ∈ s.pendingIDs) :
    PubSub.chRead (PubSub.timerFire w.rid s) w.rid = some none
    ∧ PubSub.publishResolve none topic = Except.error "missing publish ack"
    ∧ w.rid ∈ (PubSub.timerFire w.rid s).pendingIDs := by
  refine ⟨?_, rfl, ?_⟩
  · unfold PubSub.chRead PubSub.timerFire
    rw [find?_timerFire s.waiters w hw htimer]
  · simpa [PubSub.timerFire] using hpend

/-- Witness for `c4_publish_timeout_error` at the concrete state
`c4_state`. -/
theorem c4_publish_timeout_error_witness :
    (c4_state.waiters.find? (fun x => x.rid = c4_waiter.rid) = some c4_waiter)
    ∧ c4_waiter.timerOn = true
    ∧ c4_waiter.rid ∈ c4_state.pendingIDs
    ∧ (PubSub.chRead (PubSub.timerFire c4_waiter.rid c4_state) c4_waiter.rid =
        some none
       ∧ PubSub.publishResolve none "chat" =
         Except.error "missing publish ack"
       ∧ c4_waiter.rid ∈
          (PubSub.timerFire c4_waiter.rid c4_state).pendingIDs) :=
  ⟨by decide, rfl, by decide,
   c4_publish_timeout_error c4_state c4_waiter "chat" (by decide) rfl
     (by decide)⟩

theorem chRead_timerFire (s : PubSub.State) (w : PubSub.Waiter)
    (hw : s.waiters.find? (fun x => x.rid = w.rid) = some w)
    (htimer : w.timerOn = true) :
    PubSub.chRead (PubSub.timerFire w.rid s) w.rid = some none := by
  unfold PubSub.chRead PubSub.timerFire
  rw [find?_timerFire s.waiters w hw htimer]

/-- The waiter of a request `77` still blocked when `Disconnect` runs. -/
def c2_waiter : PubSub.Waiter := ⟨"77", none, true, 60⟩

/-- A connected pub/sub manager with request `77` pending. -/
def c2_state : PubSub.State :=
  { connOpen := true, isReady := true, clientID := "c",
    subs := [("t", ["l-1"])], pendingIDs := ["77"],
    waiters := [c2_waiter], counter := 26, now := 50, dialOK := true }

/-- Claim C2: `Disconnect` closes the socket, clears the ready mark, and
empties the pending map.  A waiter blocked at that moment is not resolved by
`Disconnect` itself but is abandoned safely: its 10-second timer is left
armed (only `resolvePending`/`rejectPending` stop timers), so when it fires
it delivers the nil sentinel and the blocked `Publish` returns the
missing-ack error instead of blocking forever. -/
theorem c2_disconnect_fails_pending (s : PubSub.State) (w : PubSub.Waiter)
    (topic : String)
    (hw : s.waiters.find? (fun x => x.rid = w.rid) = some w)
    (htimer : w.timerOn = true) :
    (PubSub.disconnect s).connOpen = false
    ∧ (PubSub.disconnect s).isReady = false
    ∧ (PubSub.disconnect s).pendingIDs = []
    ∧ PubSub.chRead (PubSub.timerFire w.rid (PubSub.disconnect s)) w.rid =
      some none
    ∧ PubSub.publishResolve none topic =
      Except.error "missing publish ack" :=
  ⟨rfl, rfl, rfl, chRead_timerFire (PubSub.disconnect s) w hw htimer, rfl⟩

/-- Witness for `c2_disconnect_fails_pending` at `c2_state` and its blocked
waiter. -/
theorem c2_disconnect_fails_pending_witness :
    (c2_state.waiters.find? (fun x => x.rid = c2_waiter.rid) = some c2_waiter)
    ∧ c2_waiter.timerOn = true
    ∧ ((PubSub.disconnect c2_state).connOpen = false
       ∧ (PubSub.disconnect c2_state).isReady = false
       ∧ (PubSub.disconnect c2_state).pendingIDs = []
       ∧ PubSub.chRead
          (PubSub.timerFire c2_waiter.rid (PubSub.disconnect c2_state))
          c2_waiter.rid = some none
       ∧ PubSub.publishResolve none "t" =
         Except.error "missing publish ack") :=
  ⟨by decide, rfl,
   c2_disconnect_fails_pending c2_state c2_waiter "t" (by decide) rfl⟩

/-- A running, not yet ready realtime manager with one subscription under
key `posts` and no recorded client id. -/
def c5_state : Realtime.State :=
  { clientID := "", onDisconnectSet := false,
    subscriptions := [("posts", ["l-1"])], stopCh := some false,
    readyCh := some false, running := true, counter := 1 }

/-- Claim C5 (evaluation at the failing input).  A `PB_CONNECT` event whose
JSON payload has no `clientId` key, with event id `e1`: `fmt.Sprint` of the
missing key prints the nil interface, so the recorded client id becomes the
literal string printed for nil — not the event id `e1` the fallback was
meant to supply (the emptiness guard can only fire when the field is
present and equal to the empty string).  The connection is still marked
Ready and the resync runs, but its payload carries the bogus id. -/
theorem c5_missing_clientid_records_nil :
    (Realtime.dispatchEvent "PB_CONNECT" (some []) "e1" c5_state).state.clientID =
      "<nil>"
    ∧ (Realtime.dispatchEvent "PB_CONNECT" (some []) "e1" c5_state).state.readyCh =
      some true
    ∧ (Realtime.dispatchEvent "PB_CONNECT" (some []) "e1" c5_state).resync =
      some ("<nil>", ["posts"])
    ∧ ("<nil>" : String) ≠ "e1" :=
  ⟨rfl, rfl, rfl, by decide⟩

/-- A realtime manager after a prior `Disconnect`: the stop channel is
already closed and never reset to nil, while the subscription map — which
`Disconnect` does not touch — still holds listener `l-1` under key `t`.
This state is reachable by subscribing and then calling the public
`Disconnect` method. -/
def c6_cex_state : Realtime.State :=
  { clientID := "", onDisconnectSet := false,
    subscriptions := [("t", ["l-1"])], stopCh := some true,
    readyCh := none, running := false, counter := 1 }

/-- Claim C6 (counterexample).  The claim quantifies over every
`Unsubscribe(topic)` call and promises that emptying the subscription set
performs a disconnect.  At `c6_cex_state` — reachable after a prior
`Disconnect` — removing key `t` empties the map (first conjunct: the key
matches, nothing survives the filter), and the renewed `Disconnect` then
panics closing the already-closed stop channel instead of performing a
disconnect (second conjunct). -/
theorem c6_counterexample :
    (c6_cex_state.subscriptions.filter
      (fun kv => !Realtime.keyMatches "t" kv.1) = [])
    ∧ Realtime.unsubscribe "t" c6_cex_state =
      Except.error "close of closed channel" :=
  ⟨rfl, rfl⟩

/-- Claim C6 (amended): for every `Unsubscribe(topic)` call on a manager
whose stop channel is not already closed (and with a client id recorded, so
the resync request carries a payload): an empty topic clears the whole map
and fully disconnects (stop channel closed, loop stopped, ready channel and
client id cleared); a non-empty topic removes exactly the keys equal to the
topic or starting with the topic followed by a question mark — the final
Boolean states removal exactness over every old key — then triggers a
resync carrying the remaining keys when any remain, and disconnects when
none do.  When the stop channel was already closed by a prior `Disconnect`,
an emptying removal panics instead of disconnecting
(see `c6_counterexample`). -/
theorem c6_unsubscribe_spec (s : Realtime.State) (topic : String)
    (hstop : s.stopCh = some false) (hcid : s.clientID ≠ "") :
    (topic = "" →
      Realtime.unsubscribe topic s =
        Except.ok ({ s with
                     subscriptions := [], stopCh := some true,
                     running := false, readyCh := none, clientID := "" },
                   Realtime.Action.disconnected))
    ∧ (topic ≠ "" →
        s.subscriptions.filter (fun kv => !Realtime.keyMatches topic kv.1) ≠ [] →
        Realtime.unsubscribe topic s =
          Except.ok ({ s with
                       subscriptions := s.subscriptions.filter
                         (fun kv => !Realtime.keyMatches topic kv.1) },
                     Realtime.Action.resync
                       (some (s.clientID,
                         (s.subscriptions.filter
                           (fun kv => !Realtime.keyMatches topic kv.1)).map
                             Prod.fst))))
    ∧ (topic ≠ "" →
        s.subscriptions.filter (fun kv => !Realtime.keyMatches topic kv.1) = [] →
        Realtime.unsubscribe topic s =
          Except.ok ({ s with
                       subscriptions := [], stopCh := some true,
                       running := false, readyCh := none, clientID := "" },
                     Realtime.Action.disconnected))
    ∧ ((s.subscriptions.map Prod.fst).all (fun k =>
        decide ((k ∈ (s.subscriptions.filter
            (fun kv => !Realtime.keyMatches topic kv.1)).map Prod.fst) ↔
          Realtime.keyMatches topic k = false)) = true) := by
  refine ⟨?_, ?_, ?_, ?_⟩
  · intro h
    subst h
    simp [Realtime.unsubscribe, Realtime.afterRemoval, Realtime.disconnect,
      hstop]
  · intro h hne
    simp only [Realtime.unsubscribe, if_neg h]
    rw [Realtime.afterRemoval]
    rw [if_neg (by simpa [List.isEmpty_iff] using hne)]
    simp [Realtime.submitSubscriptions, List.isEmpty_iff, hne, hcid,
      Realtime.getActiveSubscriptionsLocked]
  · intro h hemp
    simp only [Realtime.unsubscribe, if_neg h]
    rw [Realtime.afterRemoval]
    rw [if_pos (by simpa [List.isEmpty_iff] using hemp)]
    simp [Realtime.disconnect, hstop, hemp]
  · rw [List.all_eq_true]
    intro k hk
    rw [decide_eq_true_eq]
    constructor
    · intro hmem
      rcases List.mem_map.mp hmem with ⟨kv, hkv, rfl⟩
      rcases List.mem_filter.mp hkv with ⟨_, hpred⟩
      simpa using hpred
    · intro hfalse
      rcases List.mem_map.mp hk with ⟨kv, hkv, rfl⟩
      exact List.mem_map.mpr
        ⟨kv, List.mem_filter.mpr ⟨hkv, by simp [hfalse]⟩, rfl⟩

/-- A live realtime manager with keys `t` and `u`, used to instantiate the
unsubscribe theorem at topic `t`. -/
def c6_state : Realtime.State :=
  { clientID := "c1", onDisconnectSet := false,
    subscriptions := [("t", ["l-1"]), ("u", ["l-2"])],
    stopCh := some false, readyCh := some true, running := true,
    counter := 2 }

/-- Witness for `c6_unsubscribe_spec` at `c6_state` and topic `t`. -/
theorem c6_unsubscribe_spec_witness :
    (c6_state.stopCh = some false)
    ∧ (c6_state.clientID ≠ "")
    ∧ (("t" = "" →
        Realtime.unsubscribe "t" c6_state =
          Except.ok ({ c6_state with
                       subscriptions := [], stopCh := some true,
                       running := false, readyCh := none, clientID := "" },
                     Realtime.Action.disconnected))
      ∧ ("t" ≠ "" →
          c6_state.subscriptions.filter
            (fun kv => !Realtime.keyMatches "t" kv.1) ≠ [] →
          Realtime.unsubscribe "t" c6_state =
            Except.ok ({ c6_state with
                         subscriptions := c6_state.subscriptions.filter
                           (fun kv => !Realtime.keyMatches "t" kv.1) },
                       Realtime.Action.resync
                         (some (c6_state.clientID,
                           (c6_state.subscriptions.filter
                             (fun kv => !Realtime.keyMatches "t" kv.1)).map
                               Prod.fst))))
      ∧ ("t" ≠ "" →
          c6_state.subscriptions.filter
            (fun kv => !Realtime.keyMatches "t" kv.1) = [] →
          Realtime.unsubscribe "t" c6_state =
            Except.ok ({ c6_state with
                         subscriptions := [], stopCh := some true,
                         running := false, readyCh := none, clientID := "" },
                       Realtime.Action.disconnected))
      ∧ ((c6_state.subscriptions.map Prod.fst).all (fun k =>
          decide ((k ∈ (c6_state.subscriptions.filter
              (fun kv => !Realtime.keyMatches "t" kv.1)).map Prod.fst) ↔
            Realtime.keyMatches "t" k = false)) = true)) :=
  ⟨rfl, by decide, c6_unsubscribe_spec c6_state "t" rfl (by decide)⟩

/-- Claim C7: on a `ready` frame carrying client id `c`, the pub/sub
manager records `c`, marks the socket ready, and sends one `subscribe`
envelope per registered topic, in map order — exactly the topics that have
at least one listener, by the well-formedness hypothesis `hne` (the code
deletes a bucket whenever its last listener goes, so every present key has
one) — and each sent envelope has its own registered ack waiter: its
request id is in the pending map afterwards. -/
theorem c7_ready_frame_resubscribes (s : PubSub.State) (c : String)
    (hconn : s.connOpen = true)
    (hne : ∀ p ∈ s.subs, p.2 ≠ ([] : List String)) :
    ((PubSub.handleMessage
        [("type", GoVal.strV "ready"), ("clientId", GoVal.strV c)]
        s).1.clientID = c)
    ∧ ((PubSub.handleMessage
        [("type", GoVal.strV "ready"), ("clientId", GoVal.strV c)]
        s).1.isReady = true)
    ∧ ((PubSub.handleMessage
        [("type", GoVal.strV "ready"), ("clientId", GoVal.strV c)]
        s).2.1.map (fun e => goSprint (lookupL e "topic")) =
      s.subs.map Prod.fst)
    ∧ ((PubSub.handleMessage
        [("type", GoVal.strV "ready"), ("clientId", GoVal.strV c)]
        s).2.1.all (fun e =>
          decide (goSprint (lookupL e "requestId") ∈
            (PubSub.handleMessage
              [("type", GoVal.strV "ready"), ("clientId", GoVal.strV c)]
              s).1.pendingIDs)) = true) := by
  have hframe :
      PubSub.handleMessage
        [("type", GoVal.strV "ready"), ("clientId", GoVal.strV c)] s =
        ((PubSub.resubscribeAll (s.subs.map Prod.fst)
            { s with clientID := c, isReady := true }).1,
         (PubSub.resubscribeAll (s.subs.map Prod.fst)
            { s with clientID := c, isReady := true }).2, []) := rfl
  rw [hframe]
  obtain ⟨h1, h2, h3, h4, h5, h6⟩ :=
    resubscribeAll_spec (s.subs.map Prod.fst)
      { s with clientID := c, isReady := true } hconn rfl
  refine ⟨h3, h2, h4, ?_⟩
  rw [List.all_eq_true]
  intro e he
  rw [decide_eq_true_eq]
  exact h6 e he

/-- A connected pub/sub manager, not yet marked ready, holding listeners on
topics `a` and `b`. -/
def c7_state : PubSub.State :=
  { connOpen := true, isReady := false, clientID := "", subs :=
      [("a", ["l-1"]), ("b", ["l-2"])],
    pendingIDs := [], waiters := [], counter := 0, now := 50,
    dialOK := true }

/-- Witness for `c7_ready_frame_resubscribes` at `c7_state` with client id
`cid9`. -/
theorem c7_ready_frame_resubscribes_witness :
    (c7_state.connOpen = true)
    ∧ (∀ p ∈ c7_state.subs, p.2 ≠ ([] : List String))
    ∧ (((PubSub.handleMessage
          [("type", GoVal.strV "ready"), ("clientId", GoVal.strV "cid9")]
          c7_state).1.clientID = "cid9")
      ∧ ((PubSub.handleMessage
          [("type", GoVal.strV "ready"), ("clientId", GoVal.strV "cid9")]
          c7_state).1.isReady = true)
      ∧ ((PubSub.handleMessage
          [("type", GoVal.strV "ready"), ("clientId", GoVal.strV "cid9")]
          c7_state).2.1.map (fun e => goSprint (lookupL e "topic")) =
        c7_state.subs.map Prod.fst)
      ∧ ((PubSub.handleMessage
          [("type", GoVal.strV "ready"), ("clientId", GoVal.strV "cid9")]
          c7_state).2.1.all (fun e =>
            decide (goSprint (lookupL e "requestId") ∈
              (PubSub.handleMessage
                [("type", GoVal.strV "ready"), ("clientId", GoVal.strV "cid9")]
                c7_state).1.pendingIDs)) = true)) :=
  ⟨rfl, by decide,
   c7_ready_frame_resubscribes c7_state "cid9" rfl (by decide)⟩

theorem ensureThread_subscriptions (s : Realtime.State) :
    (Realtime.ensureThread s).subscriptions = s.subscriptions := by
  by_cases h : s.running <;> simp [Realtime.ensureThread, h]

/-- Claim C8: in both dispatch loops a panicking listener is isolated.  With
one listener whose callback panics among the registered ones, the dispatch
trace still invokes every listener exactly once, in order — the map over the
ids is unchanged — and the managers remain usable: a pub/sub `message` frame
and a non-handshake realtime event leave their manager state untouched, so
the connection survives the panic. -/
theorem c8_listener_isolation (pre post : List CBListener) (bad : CBListener)
    (msg : Frame) (pm : String) (s : PubSub.State) (d : Frame)
    (r : Realtime.State) (n : String) (p0 : Option Frame) (i : String)
    (hpanic : bad.fn msg = Except.error pm)
    (hmsg : goSprint (lookupL d "type") = "message")
    (hn1 : n ≠ "PB_CONNECT") (hn2 : n ≠ "") :
    ((dispatchListeners (pre ++ bad :: post) msg).map Prod.fst =
      (pre ++ bad :: post).map CBListener.id)
    ∧ ((PubSub.handleMessage d s).1 = s)
    ∧ ((Realtime.dispatchEvent n p0 i r).state = r) := by
  refine ⟨?_, ?_, ?_⟩
  · rw [dispatchListeners_eq_map, List.map_map]
    rfl
  · unfold PubSub.handleMessage
    rw [hmsg]
    rfl
  · simp [Realtime.dispatchEvent, hn1, hn2]

/-- A well-behaved listener `a`. -/
def c8_good1 : CBListener := ⟨"a", fun _ => Except.ok ()⟩

/-- The panicking listener `b`. -/
def c8_bad : CBListener := ⟨"b", fun _ => Except.error "boom"⟩

/-- A well-behaved listener `c` registered after the panicking one. -/
def c8_good2 : CBListener := ⟨"c", fun _ => Except.ok ()⟩

/-- A connected pub/sub manager with the three listeners on `chat`. -/
def c8_pstate : PubSub.State :=
  { connOpen := true, isReady := true, clientID := "c",
    subs := [("chat", ["a", "b", "c"])], pendingIDs := [], waiters := [],
    counter := 0, now := 10, dialOK := true }

/-- A live realtime manager with a listener bucket under `posts`. -/
def c8_rstate : Realtime.State :=
  { clientID := "c1", onDisconnectSet := false,
    subscriptions := [("posts", ["a"])], stopCh := some false,
    readyCh := some true, running := true, counter := 3 }

/-- The inbound pub/sub message frame of the C8 witness. -/
def c8_frame : Frame :=
  [("type", GoVal.strV "message"), ("topic", GoVal.strV "chat"),
   ("id", GoVal.strV "m1")]

/-- Witness for `c8_listener_isolation`: listener `b` panics between `a`
and `c`. -/
theorem c8_listener_isolation_witness :
    (c8_bad.fn [] = Except.error "boom")
    ∧ (goSprint (lookupL c8_frame "type") = "message")
    ∧ (("posts" : String) ≠ "PB_CONNECT")
    ∧ (("posts" : String) ≠ "")
    ∧ (((dispatchListeners ([c8_good1] ++ c8_bad :: [c8_good2]) []).map
          Prod.fst = ([c8_good1] ++ c8_bad :: [c8_good2]).map CBListener.id)
       ∧ ((PubSub.handleMessage c8_frame c8_pstate).1 = c8_pstate)
       ∧ ((Realtime.dispatchEvent "posts" none "" c8_rstate).state =
          c8_rstate)) :=
  ⟨rfl, rfl, by decide, by decide,
   c8_listener_isolation [c8_good1] [c8_good2] c8_bad [] "boom" c8_pstate
     c8_frame c8_rstate "posts" none "" rfl rfl (by decide) (by decide)⟩

/-- Claim C9: when `Subscribe` adds a listener and the inner 10-second
`EnsureConnected` wait then times out, the call returns the
connection-not-established error, yet the freshly appended listener is
still in the subscription map under its key — `Subscribe` performs no
rollback — and that key is among the active subscriptions any later resync
payload lists. -/
theorem c9_subscribe_no_rollback (s : Realtime.State) (topic : String)
    (options : Option String) (ht : topic ≠ "")
    (hready : (Realtime.ensureThread s).readyCh = some false) :
    ((Realtime.subscribe topic true options false s).2 =
      Except.error "Realtime connection not established")
    ∧ (lookupL (Realtime.subscribe topic true options false s).1.subscriptions
        (Realtime.buildSubscriptionKey topic options) =
      some ((lookupL s.subscriptions
          (Realtime.buildSubscriptionKey topic options)).getD [] ++
        ["l-" ++ toString (s.counter + 1)]))
    ∧ ((Realtime.buildSubscriptionKey topic options) ∈
        Realtime.getActiveSubscriptionsLocked
          (Realtime.subscribe topic true options false s).1) := by
  have hrd : (Realtime.ensureThread { s with
      counter := s.counter + 1,
      subscriptions := setKey s.subscriptions
        (Realtime.buildSubscriptionKey topic options)
        ((lookupL s.subscriptions
            (Realtime.buildSubscriptionKey topic options)).getD [] ++
          ["l-" ++ toString (s.counter + 1)]) }).readyCh = some false := by
    rw [ensureThread_readyCh_congr]
    exact hready
  have houtcome : Realtime.ensureConnectedOutcome false
      (Realtime.ensureThread { s with
        counter := s.counter + 1,
        subscriptions := setKey s.subscriptions
          (Realtime.buildSubscriptionKey topic options)
          ((lookupL s.subscriptions
              (Realtime.buildSubscriptionKey topic options)).getD [] ++
            ["l-" ++ toString (s.counter + 1)]) }) =
      Except.error "Realtime connection not established" := by
    unfold Realtime.ensureConnectedOutcome
    rw [ensureThread_idem, hrd]
    rfl
  have hsub : Realtime.subscribe topic true options false s =
      (Realtime.ensureThread { s with
        counter := s.counter + 1,
        subscriptions := setKey s.subscriptions
          (Realtime.buildSubscriptionKey topic options)
          ((lookupL s.subscriptions
              (Realtime.buildSubscriptionKey topic options)).getD [] ++
            ["l-" ++ toString (s.counter + 1)]) },
       Except.error "Realtime connection not established") := by
    simp only [Realtime.subscribe, if_neg ht]
    simp [houtcome]
  refine ⟨?_, ?_, ?_⟩
  · rw [hsub]
  · rw [hsub]
    show lookupL (Realtime.ensureThread _).subscriptions _ = _
    rw [ensureThread_subscriptions]
    exact lookupL_setKey_self s.subscriptions
      (Realtime.buildSubscriptionKey topic options)
      ((lookupL s.subscriptions
          (Realtime.buildSubscriptionKey topic options)).getD [] ++
        ["l-" ++ toString (s.counter + 1)])
  · rw [hsub]
    show Realtime.buildSubscriptionKey topic options ∈
      (Realtime.ensureThread _).subscriptions.map Prod.fst
    rw [ensureThread_subscriptions]
    exact lookupL_some_mem_keys _ _ _
      (lookupL_setKey_self s.subscriptions
        (Realtime.buildSubscriptionKey topic options)
        ((lookupL s.subscriptions
            (Realtime.buildSubscriptionKey topic options)).getD [] ++
          ["l-" ++ toString (s.counter + 1)]))

/-- A fresh realtime manager: no subscriptions, loop not running. -/
def c9_state : Realtime.State :=
  { clientID := "", onDisconnectSet := false, subscriptions := [],
    stopCh := none, readyCh := none, running := false, counter := 0 }

/-- Witness for `c9_subscribe_no_rollback` at `c9_state`, topic `posts`,
no options, with `EnsureConnected` timing out. -/
theorem c9_subscribe_no_rollback_witness :
    (("posts" : String) ≠ "")
    ∧ ((Realtime.ensureThread c9_state).readyCh = some false)
    ∧ (((Realtime.subscribe "posts" true none false c9_state).2 =
        Except.error "Realtime connection not established")
      ∧ (lookupL
          (Realtime.subscribe "posts" true none false c9_state).1.subscriptions
          (Realtime.buildSubscriptionKey "posts" none) =
        some ((lookupL c9_state.subscriptions
            (Realtime.buildSubscriptionKey "posts" none)).getD [] ++
          ["l-" ++ toString (c9_state.counter + 1)]))
      ∧ ((Realtime.buildSubscriptionKey "posts" none) ∈
          Realtime.getActiveSubscriptionsLocked
            (Realtime.subscribe "posts" true none false c9_state).1)) :=
  ⟨by decide, rfl,
   c9_subscribe_no_rollback c9_state "posts" none (by decide) rfl⟩

/-- Claim C10: whenever a `PB_CONNECT` handshake event is dispatched and
the `OnDisconnect` hook is set, the hook is invoked exactly once, with the
empty list — the hook fires on every successful (re)connect handshake, not
only at stream loss. -/
theorem c10_hook_fires_on_connect (s : Realtime.State)
    (payload0 : Option Frame) (evtID : String)
    (hset : s.onDisconnectSet = true) :
    (Realtime.dispatchEvent "PB_CONNECT" payload0 evtID s).hookArgs =
      [[]] := by
  show (if s.onDisconnectSet = true then [[]] else []) = [[]]
  rw [hset]
  rfl

/-- A realtime manager with the `OnDisconnect` hook installed. -/
def c10_state : Realtime.State :=
  { clientID := "", onDisconnectSet := true, subscriptions := [],
    stopCh := some false, readyCh := some false, running := true,
    counter := 0 }

/-- Witness for `c10_hook_fires_on_connect` at `c10_state`. -/
theorem c10_hook_fires_on_connect_witness :
    (c10_state.onDisconnectSet = true)
    ∧ ((Realtime.dispatchEvent "PB_CONNECT" none "" c10_state).hookArgs =
      [[]]) :=
  ⟨rfl, c10_hook_fires_on_connect c10_state none "" rfl⟩

end GoSDK
